import Mathlib

/-!
Verification of the Supermicro Redfish Home Assistant integration's data
coordinator (`custom_components/supermicro_redfish/coordinator.py`), its
constants (`const.py`), data model (`data.py`) and options form
(`config_flow.py`).

Snapshot payload fields (System, Chassis, Thermal, ...) are opaque to the
coordinator: it only moves them around, never inspects them.  They are
modelled as `Nat` payloads.  Wall-clock times (`time.time()`) are modelled
as `Nat` seconds.  Each call of `_async_update_data` is modelled as a pure
function of the coordinator state, the current time and the outcomes the
client produces for the two fetches of that cycle.
-/

namespace SupermicroRedfish

/-- Constants from `const.py` (polling intervals, seconds). -/
def DEFAULT_SCAN_INTERVAL : Nat := 30

def DEFAULT_BURST_INTERVAL : Nat := 5

def DEFAULT_BURST_DURATION : Nat := 60

def DEFAULT_STATIC_INTERVAL : Nat := 300

def MIN_SCAN_INTERVAL : Nat := 10

def MAX_SCAN_INTERVAL : Nat := 300

def MIN_BURST_INTERVAL : Nat := 1

def MAX_BURST_INTERVAL : Nat := 30

def MIN_BURST_DURATION : Nat := 10

def MAX_BURST_DURATION : Nat := 300

def MIN_STATIC_INTERVAL : Nat := 60

def MAX_STATIC_INTERVAL : Nat := 900

def MIN_CONCURRENT_REQUESTS : Nat := 1

def MAX_CONCURRENT_REQUESTS : Nat := 10

def DEFAULT_CONCURRENT_REQUESTS : Nat := 5

/-- `CONNECTION_ERROR_THRESHOLD` from `const.py`: repair issue after this
many consecutive connection errors. -/
def CONNECTION_ERROR_THRESHOLD : Nat := 3

/-- The static part of a fetch, as returned by
`client.async_get_static_data()`: identity and rarely-changing
configuration. -/
structure StaticData where
  system : Nat
  chassis : Nat
  manager : Nat
  ntp : Nat
  lldp : Nat
  license : Nat
  network_protocol : Nat
deriving DecidableEq, Repr

/-- The dynamic part of a fetch, as returned by
`client.async_get_dynamic_data()`: frequently-changing telemetry. -/
structure DynamicData where
  thermal : Nat
  power : Nat
  fan_mode : Nat
  snooping : Nat
deriving DecidableEq, Repr

/-- `CoordinatorData` from `data.py`: the merged snapshot published to
subscribers. -/
structure CoordinatorData where
  system : Nat
  chassis : Nat
  manager : Nat
  thermal : Nat
  power : Nat
  fan_mode : Nat
  ntp : Nat
  lldp : Nat
  snooping : Nat
  license : Nat
  network_protocol : Nat
deriving DecidableEq, Repr

/-- Outcome of one client fetch call: a value, or one of the exceptions
`_async_update_data` distinguishes (`AuthenticationError`,
`ConnectionError` from `aiosupermicro.exceptions`, or any other
exception). -/
inductive FetchResult (α : Type) where
  | ok : α → FetchResult α
  | authError : FetchResult α
  | connectionError : FetchResult α
  | unexpectedError : FetchResult α
deriving DecidableEq, Repr

/-- Coordinator configuration: the host from the config entry plus the
four intervals read in `SupermicroRedfishCoordinator.__init__`. -/
structure Config where
  host : Nat
  scan_interval : Nat
  burst_interval : Nat
  burst_duration : Nat
  static_interval : Nat
deriving DecidableEq, Repr

/-- The interval options as they may (or may not) be present in
`entry.options`. -/
structure CoordinatorOptions where
  scan_interval : Option Nat
  burst_interval : Option Nat
  burst_duration : Option Nat
  static_interval : Option Nat
deriving DecidableEq, Repr

/-- `SupermicroRedfishCoordinator.__init__`: each interval is
`entry.options.get(key, default)`. -/
def coordinator_init (host : Nat) (opts : CoordinatorOptions) : Config :=
  { host := host
    scan_interval := opts.scan_interval.getD DEFAULT_SCAN_INTERVAL
    burst_interval := opts.burst_interval.getD DEFAULT_BURST_INTERVAL
    burst_duration := opts.burst_duration.getD DEFAULT_BURST_DURATION
    static_interval := opts.static_interval.getD DEFAULT_STATIC_INTERVAL }

/-- Mutable coordinator state: `_connection_errors`,
`_last_static_update`, `_static_data_cache`, the published snapshot
`data` held by the `DataUpdateCoordinator` base class, and the repair
issue (host, error_count) registered in the issue registry (`none` while
no issue with this coordinator's identity exists). -/
structure CoordinatorState where
  connection_errors : Nat
  last_static_update : Nat
  static_data_cache : Option CoordinatorData
  data : Option CoordinatorData
  issue : Option (Nat × Nat)
deriving DecidableEq, Repr

/-- State as `__init__` leaves it: zero errors, `_last_static_update = 0`,
no cache, no published data, no issue. -/
def initial_state : CoordinatorState :=
  { connection_errors := 0, last_static_update := 0
    static_data_cache := none, data := none, issue := none }

/-- `_should_update_static_data`:
`time.time() - self._last_static_update > self._static_interval`. -/
def should_update_static_data (cfg : Config) (now : Nat)
    (s : CoordinatorState) : Bool :=
  decide (cfg.static_interval < now - s.last_static_update)

/-- The guard of the static branch in `_async_update_data`:
`self._should_update_static_data() or self._static_data_cache is None`. -/
def static_fetch_needed (cfg : Config) (now : Nat)
    (s : CoordinatorState) : Bool :=
  should_update_static_data cfg now s || s.static_data_cache.isNone

/-- The `CoordinatorData(...)` construction of the fresh-static branch
(coordinator.py lines 118-130): static fields from `static`, dynamic
fields from `dynamic`. -/
def buildFromStatic (static : StaticData) (dynamic : DynamicData) :
    CoordinatorData :=
  { system := static.system
    chassis := static.chassis
    manager := static.manager
    thermal := dynamic.thermal
    power := dynamic.power
    fan_mode := dynamic.fan_mode
    ntp := static.ntp
    lldp := static.lldp
    snooping := dynamic.snooping
    license := static.license
    network_protocol := static.network_protocol }

/-- The `CoordinatorData(...)` construction of the cached branch
(coordinator.py lines 134-146): static fields from
`self._static_data_cache`, dynamic fields from `dynamic`. -/
def buildFromCache (cache : CoordinatorData) (dynamic : DynamicData) :
    CoordinatorData :=
  { system := cache.system
    chassis := cache.chassis
    manager := cache.manager
    thermal := dynamic.thermal
    power := dynamic.power
    fan_mode := dynamic.fan_mode
    ntp := cache.ntp
    lldp := cache.lldp
    snooping := dynamic.snooping
    license := cache.license
    network_protocol := cache.network_protocol }

/-- How one `_async_update_data` call ends: return value, or one of the
raised exceptions (`ConfigEntryAuthFailed`, `UpdateFailed` from the
connection handler, `UpdateFailed` from the generic handler). -/
inductive UpdateResult where
  | success : CoordinatorData → UpdateResult
  | configEntryAuthFailed : UpdateResult
  | updateFailed : UpdateResult
  | unexpectedFailure : UpdateResult
deriving DecidableEq, Repr

/-- Everything observable about one `_async_update_data` call: the state
it leaves behind, how it ended, which fetches it performed, and how many
times it called `ir.async_create_issue`. -/
structure UpdateOutcome where
  state : CoordinatorState
  result : UpdateResult
  dynamic_fetched : Bool
  static_fetched : Bool
  alert_calls : Nat
deriving DecidableEq, Repr

/-- The `except AuthenticationError` handler (lines 153-157): raise
`ConfigEntryAuthFailed`; no state is touched. -/
def auth_error_outcome (sf : Bool) (s : CoordinatorState) : UpdateOutcome :=
  { state := s, result := .configEntryAuthFailed
    dynamic_fetched := true, static_fetched := sf, alert_calls := 0 }

/-- The `except ConnectionError` handler (lines 159-176): increment
`_connection_errors`; at the threshold call `ir.async_create_issue`
(an idempotent upsert keyed by the entry id, carrying the host and the
error count); raise `UpdateFailed`. -/
def connection_error_outcome (cfg : Config) (sf : Bool)
    (s : CoordinatorState) : UpdateOutcome :=
  let errs := s.connection_errors + 1
  let issue' := if CONNECTION_ERROR_THRESHOLD ≤ errs then
      some (cfg.host, errs) else s.issue
  { state := { s with connection_errors := errs, issue := issue' }
    result := .updateFailed
    dynamic_fetched := true, static_fetched := sf
    alert_calls := if CONNECTION_ERROR_THRESHOLD ≤ errs then 1 else 0 }

/-- The `except Exception` handler (lines 178-180): raise `UpdateFailed`;
no state is touched. -/
def unexpected_error_outcome (sf : Bool) (s : CoordinatorState) :
    UpdateOutcome :=
  { state := s, result := .unexpectedFailure
    dynamic_fetched := true, static_fetched := sf, alert_calls := 0 }

/-- The static branch of `_async_update_data` (lines 114-131): fetch
static data; on success set `_last_static_update = now`, build the merged
data, store it as `_static_data_cache`, reset the error counter and
publish; exceptions go to the shared handlers. -/
def fetch_static_branch (cfg : Config) (now : Nat) (dynamic : DynamicData)
    (staticResult : FetchResult StaticData) (s : CoordinatorState) :
    UpdateOutcome :=
  match staticResult with
  | .ok static =>
      let data := buildFromStatic static dynamic
      let s' := { s with
        last_static_update := now
        static_data_cache := some data
        connection_errors := 0
        data := some data }
      { state := s'
        result := .success data
        dynamic_fetched := true, static_fetched := true, alert_calls := 0 }
  | .authError => auth_error_outcome true s
  | .connectionError => connection_error_outcome cfg true s
  | .unexpectedError => unexpected_error_outcome true s

/-- `_async_update_data`: always fetch dynamic data; then take the static
branch when `_should_update_static_data() or _static_data_cache is None`
(both operands are pure, so testing the cache first is equivalent),
otherwise merge the cache with the fresh dynamic data.  On success the
error counter resets and the result is published; exceptions leave the
caches and the published snapshot untouched. -/
def async_update_data (cfg : Config) (now : Nat)
    (dynamicResult : FetchResult DynamicData)
    (staticResult : FetchResult StaticData)
    (s : CoordinatorState) : UpdateOutcome :=
  match dynamicResult with
  | .authError => auth_error_outcome false s
  | .connectionError => connection_error_outcome cfg false s
  | .unexpectedError => unexpected_error_outcome false s
  | .ok dynamic =>
      match s.static_data_cache with
      | none => fetch_static_branch cfg now dynamic staticResult s
      | some cache =>
          if should_update_static_data cfg now s then
            fetch_static_branch cfg now dynamic staticResult s
          else
            let data := buildFromCache cache dynamic
            { state := { s with connection_errors := 0, data := some data }
              result := .success data
              dynamic_fetched := true, static_fetched := false
              alert_calls := 0 }

/-- `async_refresh_static_data`: set `_last_static_update = 0` (the
subsequent `async_request_refresh` is a separate `_async_update_data`
call). -/
def async_refresh_static_data (s : CoordinatorState) : CoordinatorState :=
  { s with last_static_update := 0 }

/-- The `while` loop of `_async_burst_polling`: starting from a check at
time `t`, while `t < end_time` sleep `interval` seconds and request a
refresh (recorded as the tick time `t + interval`).  The structural `fuel`
argument only bounds the recursion; `burst_loop_mem` shows any
`fuel > duration` is enough when `interval ≥ 1`, so the bound never cuts
the loop short. -/
def burst_loop : Nat → Nat → Nat → Nat → List Nat
  | 0, _, _, _ => []
  | fuel + 1, interval, end_time, t =>
      if t < end_time then
        (t + interval) :: burst_loop fuel interval end_time (t + interval)
      else []

/-- `_async_burst_polling` activated at time `t0`:
`end_time = time.time() + burst_duration`, then the sleep/refresh loop.
Returns the times at which the cycle requests a refresh. -/
def async_burst_polling (duration interval t0 : Nat) : List Nat :=
  burst_loop (duration + 1) interval (t0 + duration) t0

/-- One `hass.async_create_task(self._async_burst_polling())` task:
its activation time, and the time at which it was cancelled, if ever. -/
structure BurstTask where
  start : Nat
  cancelled_at : Option Nat
deriving DecidableEq, Repr

/-- The time of the final loop check, after which the burst task is
naturally `done()`: the loop advances by `interval` once per emitted
tick. -/
def task_finish_time (duration interval : Nat) (tk : BurstTask) : Nat :=
  tk.start + (async_burst_polling duration interval tk.start).length * interval

/-- `task.done()` at time `now`: the loop has run its final check. -/
def task_done (duration interval now : Nat) (tk : BurstTask) : Bool :=
  decide (task_finish_time duration interval tk ≤ now)

/-- A burst cycle still scheduling ticks at time `now`: neither cancelled
nor naturally finished. -/
def task_active (duration interval now : Nat) (tk : BurstTask) : Bool :=
  tk.cancelled_at.isNone && !(task_done duration interval now tk)

/-- The refresh requests a burst task actually issues: all its ticks when
it is never cancelled; only the ticks at or before the cancellation time
once `cancel()` lands (cooperative cancellation takes effect at the
task's next suspension point, so requests already issued stand). -/
def fired_ticks (duration interval : Nat) (tk : BurstTask) : List Nat :=
  match tk.cancelled_at with
  | none => async_burst_polling duration interval tk.start
  | some tc =>
      (async_burst_polling duration interval tk.start).filter
        (fun τ => decide (τ ≤ tc))

/-- `enable_burst_mode` called at time `t`: cancel the current
`_burst_task` when it exists and is not `done()`, then create a fresh
burst task.  The state is the list of tasks ever created, most recent
first; `_burst_task` is its head. -/
def enable_burst_mode (duration interval t : Nat) :
    List BurstTask → List BurstTask
  | [] => [⟨t, none⟩]
  | tk :: rest =>
      ⟨t, none⟩ ::
        (if tk.cancelled_at.isNone && !(task_done duration interval t tk)
         then { tk with cancelled_at := some t } else tk) :: rest

/-- A sequence of `enable_burst_mode` calls starting from no task. -/
def run_bursts (duration interval : Nat) (ts : List Nat) : List BurstTask :=
  ts.foldl (fun s t => enable_burst_mode duration interval t s) []

/-- `vol.Range(min=lo, max=hi)` applied to an integer value. -/
def volRangeCheck (lo hi v : Nat) : Bool :=
  decide (lo ≤ v) && decide (v ≤ hi)

/-- The values submitted through the options form. -/
structure OptionsInput where
  scan_interval : Nat
  burst_interval : Nat
  burst_duration : Nat
  static_interval : Nat
  max_concurrent_requests : Nat
deriving DecidableEq, Repr

/-- The schema of `SupermicroRedfishOptionsFlow.async_step_init`: every
field is `vol.All(vol.Coerce(int), vol.Range(min, max))` with the
constants of `const.py` (`vol.Coerce(int)` is the identity on the integer
values modelled here). -/
def options_schema_valid (o : OptionsInput) : Bool :=
  volRangeCheck MIN_SCAN_INTERVAL MAX_SCAN_INTERVAL o.scan_interval &&
  volRangeCheck MIN_BURST_INTERVAL MAX_BURST_INTERVAL o.burst_interval &&
  volRangeCheck MIN_BURST_DURATION MAX_BURST_DURATION o.burst_duration &&
  volRangeCheck MIN_STATIC_INTERVAL MAX_STATIC_INTERVAL o.static_interval &&
  volRangeCheck MIN_CONCURRENT_REQUESTS MAX_CONCURRENT_REQUESTS
    o.max_concurrent_requests

/-- One scheduled invocation of `_async_update_data`: the wall-clock time
and the outcomes the client would produce for the two fetches of that
cycle. -/
structure RefreshCall where
  now : Nat
  dynamicResult : FetchResult DynamicData
  staticResult : FetchResult StaticData
deriving DecidableEq, Repr

/-- Run a sequence of refresh calls, returning the final coordinator
state and the total number of `ir.async_create_issue` calls along the
way. -/
def run_refreshes (cfg : Config) :
    List RefreshCall → CoordinatorState → CoordinatorState × Nat
  | [], s => (s, 0)
  | c :: rest, s =>
      let o := async_update_data cfg c.now c.dynamicResult c.staticResult s
      let r := run_refreshes cfg rest o.state
      (r.1, o.alert_calls + r.2)

/-- A sample configuration (defaults, host 0) for concrete witnesses. -/
def cfg0 : Config := ⟨0, 30, 5, 60, 300⟩

/-- A sample dynamic fetch payload for concrete witnesses. -/
def D0 : DynamicData := ⟨1, 2, 3, 4⟩

/-- A sample static fetch payload for concrete witnesses. -/
def S0 : StaticData := ⟨5, 6, 7, 8, 9, 10, 11⟩

lemma upd_dyn_auth (cfg : Config) (now : Nat) (sr : FetchResult StaticData)
    (s : CoordinatorState) :
    async_update_data cfg now .authError sr s = auth_error_outcome false s :=
  rfl

lemma upd_dyn_conn (cfg : Config) (now : Nat) (sr : FetchResult StaticData)
    (s : CoordinatorState) :
    async_update_data cfg now .connectionError sr s =
      connection_error_outcome cfg false s :=
  rfl

lemma upd_dyn_unexpected (cfg : Config) (now : Nat)
    (sr : FetchResult StaticData) (s : CoordinatorState) :
    async_update_data cfg now .unexpectedError sr s =
      unexpected_error_outcome false s :=
  rfl

lemma upd_ok_needed (cfg : Config) (now : Nat) (D : DynamicData)
    (sr : FetchResult StaticData) (s : CoordinatorState)
    (h : static_fetch_needed cfg now s = true) :
    async_update_data cfg now (.ok D) sr s =
      fetch_static_branch cfg now D sr s := by
  unfold static_fetch_needed at h
  cases hc : s.static_data_cache with
  | none => simp [async_update_data, hc]
  | some c =>
      rw [hc] at h
      simp only [Option.isNone_some, Bool.or_false] at h
      simp [async_update_data, hc, h]

lemma upd_ok_cached (cfg : Config) (now : Nat) (D : DynamicData)
    (sr : FetchResult StaticData) (s : CoordinatorState) (c : CoordinatorData)
    (hc : s.static_data_cache = some c)
    (hsu : should_update_static_data cfg now s = false) :
    async_update_data cfg now (.ok D) sr s =
      { state := { s with
          connection_errors := 0
          data := some (buildFromCache c D) }
        result := .success (buildFromCache c D)
        dynamic_fetched := true, static_fetched := false
        alert_calls := 0 } := by
  simp [async_update_data, hc, hsu]

lemma static_fetched_eq (cfg : Config) (now : Nat) (D : DynamicData)
    (sr : FetchResult StaticData) (s : CoordinatorState) :
    (async_update_data cfg now (.ok D) sr s).static_fetched =
      static_fetch_needed cfg now s := by
  by_cases h : static_fetch_needed cfg now s = true
  · rw [upd_ok_needed cfg now D sr s h, h]
    cases sr <;>
      simp [fetch_static_branch, auth_error_outcome,
        connection_error_outcome, unexpected_error_outcome]
  · rw [Bool.not_eq_true] at h
    unfold static_fetch_needed at h
    cases hc : s.static_data_cache with
    | none => rw [hc] at h; simp at h
    | some c =>
        rw [hc] at h
        simp only [Option.isNone_some, Bool.or_false] at h
        rw [upd_ok_cached cfg now D sr s c hc h]
        unfold static_fetch_needed
        rw [hc, h]
        rfl

lemma dynamic_fetched_eq (cfg : Config) (now : Nat)
    (dr : FetchResult DynamicData) (sr : FetchResult StaticData)
    (s : CoordinatorState) :
    (async_update_data cfg now dr sr s).dynamic_fetched = true := by
  cases dr with
  | authError => rfl
  | connectionError => rfl
  | unexpectedError => rfl
  | ok D =>
      by_cases h : static_fetch_needed cfg now s = true
      · rw [upd_ok_needed cfg now D sr s h]
        cases sr <;>
          simp [fetch_static_branch, auth_error_outcome,
            connection_error_outcome, unexpected_error_outcome]
      · rw [Bool.not_eq_true] at h
        unfold static_fetch_needed at h
        cases hc : s.static_data_cache with
        | none => rw [hc] at h; simp at h
        | some c =>
            rw [hc] at h
            simp only [Option.isNone_some, Bool.or_false] at h
            rw [upd_ok_cached cfg now D sr s c hc h]

lemma upd_ok_ok_needed (cfg : Config) (now : Nat) (D : DynamicData)
    (S : StaticData) (s : CoordinatorState)
    (h : static_fetch_needed cfg now s = true) :
    async_update_data cfg now (.ok D) (.ok S) s =
      { state := { s with
          last_static_update := now
          static_data_cache := some (buildFromStatic S D)
          connection_errors := 0
          data := some (buildFromStatic S D) }
        result := .success (buildFromStatic S D)
        dynamic_fetched := true, static_fetched := true
        alert_calls := 0 } := by
  rw [upd_ok_needed cfg now D (.ok S) s h]
  rfl

/-- C5: merging a StaticSnapshot `S` with a DynamicSnapshot `D` is a pure
function — two calls on the same inputs agree field-for-field, with no
dependency on prior merges — and every field of the result is a direct
assignment from exactly one of the two snapshots: `thermal`, `power`,
`fan_mode` and `snooping` from `D`; `system`, `chassis`, `manager`,
`ntp`, `lldp`, `license` and `network_protocol` from `S`. -/
theorem merge_determinism_and_sourcing (S : StaticData) (D : DynamicData) :
    buildFromStatic S D = buildFromStatic S D ∧
    (buildFromStatic S D).thermal = D.thermal ∧
    (buildFromStatic S D).power = D.power ∧
    (buildFromStatic S D).fan_mode = D.fan_mode ∧
    (buildFromStatic S D).snooping = D.snooping ∧
    (buildFromStatic S D).system = S.system ∧
    (buildFromStatic S D).chassis = S.chassis ∧
    (buildFromStatic S D).manager = S.manager ∧
    (buildFromStatic S D).ntp = S.ntp ∧
    (buildFromStatic S D).lldp = S.lldp ∧
    (buildFromStatic S D).license = S.license ∧
    (buildFromStatic S D).network_protocol = S.network_protocol :=
  ⟨rfl, rfl, rfl, rfl, rfl, rfl, rfl, rfl, rfl, rfl, rfl, rfl⟩

/-- C8: the coordinator falls back to the documented defaults for any
option that is absent (scan 30, burst interval 5, burst duration 60,
static max-age 300); the options form validates each interval to its
documented range (scan [10,300], burst interval [1,30], burst duration
[10,300], static max-age [60,900]); and the connection-error alert
threshold is the fixed constant 3. -/
theorem configuration_surface :
    (∀ host, coordinator_init host ⟨none, none, none, none⟩ =
      ⟨host, 30, 5, 60, 300⟩) ∧
    (∀ host opts, (opts : CoordinatorOptions).scan_interval = none →
      (coordinator_init host opts).scan_interval = 30) ∧
    (∀ host opts, (opts : CoordinatorOptions).burst_interval = none →
      (coordinator_init host opts).burst_interval = 5) ∧
    (∀ host opts, (opts : CoordinatorOptions).burst_duration = none →
      (coordinator_init host opts).burst_duration = 60) ∧
    (∀ host opts, (opts : CoordinatorOptions).static_interval = none →
      (coordinator_init host opts).static_interval = 300) ∧
    (∀ v, volRangeCheck MIN_SCAN_INTERVAL MAX_SCAN_INTERVAL v = true ↔
      10 ≤ v ∧ v ≤ 300) ∧
    (∀ v, volRangeCheck MIN_BURST_INTERVAL MAX_BURST_INTERVAL v = true ↔
      1 ≤ v ∧ v ≤ 30) ∧
    (∀ v, volRangeCheck MIN_BURST_DURATION MAX_BURST_DURATION v = true ↔
      10 ≤ v ∧ v ≤ 300) ∧
    (∀ v, volRangeCheck MIN_STATIC_INTERVAL MAX_STATIC_INTERVAL v = true ↔
      60 ≤ v ∧ v ≤ 900) ∧
    (∀ o, options_schema_valid o = true →
      (10 ≤ o.scan_interval ∧ o.scan_interval ≤ 300) ∧
      (1 ≤ o.burst_interval ∧ o.burst_interval ≤ 30) ∧
      (10 ≤ o.burst_duration ∧ o.burst_duration ≤ 300) ∧
      (60 ≤ o.static_interval ∧ o.static_interval ≤ 900)) ∧
    CONNECTION_ERROR_THRESHOLD = 3 := by
  refine ⟨fun host => rfl, ?_, ?_, ?_, ?_, ?_, ?_, ?_, ?_, ?_, rfl⟩
  · intro host opts h
    simp [coordinator_init, h, DEFAULT_SCAN_INTERVAL]
  · intro host opts h
    simp [coordinator_init, h, DEFAULT_BURST_INTERVAL]
  · intro host opts h
    simp [coordinator_init, h, DEFAULT_BURST_DURATION]
  · intro host opts h
    simp [coordinator_init, h, DEFAULT_STATIC_INTERVAL]
  · intro v
    simp [volRangeCheck, MIN_SCAN_INTERVAL, MAX_SCAN_INTERVAL]
  · intro v
    simp [volRangeCheck, MIN_BURST_INTERVAL, MAX_BURST_INTERVAL]
  · intro v
    simp [volRangeCheck, MIN_BURST_DURATION, MAX_BURST_DURATION]
  · intro v
    simp [volRangeCheck, MIN_STATIC_INTERVAL, MAX_STATIC_INTERVAL]
  · intro o h
    simp only [options_schema_valid, Bool.and_eq_true, volRangeCheck,
      decide_eq_true_eq, MIN_SCAN_INTERVAL, MAX_SCAN_INTERVAL,
      MIN_BURST_INTERVAL, MAX_BURST_INTERVAL, MIN_BURST_DURATION,
      MAX_BURST_DURATION, MIN_STATIC_INTERVAL, MAX_STATIC_INTERVAL] at h
    exact ⟨⟨h.1.1.1.1.1, h.1.1.1.1.2⟩, ⟨h.1.1.1.2.1, h.1.1.1.2.2⟩,
      ⟨h.1.1.2.1, h.1.1.2.2⟩, ⟨h.1.2.1, h.1.2.2⟩⟩

/-- Witness for C8 at concrete inputs: the defaults for an empty options
map and the scan-interval range at 30. -/
theorem configuration_surface_witness :
    coordinator_init 7 ⟨none, none, none, none⟩ = ⟨7, 30, 5, 60, 300⟩ ∧
    (10 ≤ 30 ∧ 30 ≤ 300) :=
  ⟨configuration_surface.1 7,
    (configuration_surface.2.2.2.2.2.1 30).mp (by decide)⟩

/-- C1: every `_async_update_data` performs the dynamic fetch; when the
dynamic fetch succeeds, the static fetch runs exactly when
`static_fetch_needed` holds, which unfolds to "time since the last static
fetch exceeds `static_interval`, or no static cache exists"; a
force-refresh (`async_refresh_static_data`) guarantees the next refresh
fetches static data; a successful static fetch stores the cache and sets
`last_static_update = now`; and a second refresh within `static_interval`
seconds of a successful static fetch performs no second static fetch. -/
theorem static_caching_cadence (cfg : Config) (now : Nat)
    (dr : FetchResult DynamicData) (sr : FetchResult StaticData)
    (s : CoordinatorState) :
    (async_update_data cfg now dr sr s).dynamic_fetched = true ∧
    (static_fetch_needed cfg now s = true ↔
      cfg.static_interval < now - s.last_static_update ∨
        s.static_data_cache = none) ∧
    (∀ D, dr = .ok D →
      ((async_update_data cfg now dr sr s).static_fetched = true ↔
        static_fetch_needed cfg now s = true)) ∧
    (∀ D S, dr = .ok D → sr = .ok S →
      (async_update_data cfg now dr sr s).static_fetched = true →
      (async_update_data cfg now dr sr s).state.last_static_update = now ∧
      (async_update_data cfg now dr sr s).state.static_data_cache =
        some (buildFromStatic S D)) ∧
    (∀ D, cfg.static_interval < now →
      (async_update_data cfg now (.ok D) sr
        (async_refresh_static_data s)).static_fetched = true) ∧
    (∀ D₁ S₁ D₂ sr₂ t₂, now ≤ t₂ → t₂ - now ≤ cfg.static_interval →
      (async_update_data cfg now (.ok D₁) (.ok S₁) s).static_fetched = true →
      (async_update_data cfg t₂ (.ok D₂) sr₂
          (async_update_data cfg now (.ok D₁) (.ok S₁) s).state).static_fetched
        = false) := by
  refine ⟨dynamic_fetched_eq cfg now dr sr s, ?_, ?_, ?_, ?_, ?_⟩
  · unfold static_fetch_needed should_update_static_data
    cases hc : s.static_data_cache <;> simp [hc]
  · rintro D rfl
    rw [static_fetched_eq]
  · rintro D S rfl rfl hf
    rw [static_fetched_eq] at hf
    rw [upd_ok_ok_needed cfg now D S s hf]
    exact ⟨rfl, rfl⟩
  · intro D h
    rw [static_fetched_eq]
    have h2 : (async_refresh_static_data s).last_static_update = 0 := rfl
    have h1 : should_update_static_data cfg now
        (async_refresh_static_data s) = true := by
      unfold should_update_static_data
      rw [h2]
      simp only [Nat.sub_zero]
      exact decide_eq_true h
    unfold static_fetch_needed
    rw [h1]
    rfl
  · intro D₁ S₁ D₂ sr₂ t₂ hle hage hf
    rw [static_fetched_eq] at hf
    rw [upd_ok_ok_needed cfg now D₁ S₁ s hf]
    rw [static_fetched_eq]
    unfold static_fetch_needed should_update_static_data
    simp only [Option.isNone_some, Bool.or_false, decide_eq_false_iff_not]
    omega

/-- Witness for C1: at time 400 from the initial state a refresh with
both fetches succeeding performs the static fetch; a second refresh at
time 500 (within the 300-second max age) performs no static fetch. -/
theorem static_caching_cadence_witness :
    (async_update_data cfg0 400 (.ok D0) (.ok S0)
      initial_state).static_fetched = true ∧
    (async_update_data cfg0 500 (.ok D0) (.ok S0)
        (async_update_data cfg0 400 (.ok D0) (.ok S0)
          initial_state).state).static_fetched = false := by
  constructor
  · exact ((static_caching_cadence cfg0 400 (.ok D0) (.ok S0)
      initial_state).2.2.1 D0 rfl).mpr (by decide)
  · exact (static_caching_cadence cfg0 400 (.ok D0) (.ok S0)
      initial_state).2.2.2.2.2 D0 S0 D0 (.ok S0) 500 (by decide) (by decide)
      (by decide)

lemma static_fetch_needed_false (cfg : Config) (now : Nat)
    (s : CoordinatorState) (hn : static_fetch_needed cfg now s = false) :
    ∃ c, s.static_data_cache = some c ∧
      should_update_static_data cfg now s = false := by
  unfold static_fetch_needed at hn
  cases hc : s.static_data_cache with
  | none => rw [hc] at hn; simp at hn
  | some c =>
      rw [hc] at hn
      simp only [Option.isNone_some, Bool.or_false] at hn
      exact ⟨c, rfl, hn⟩

lemma upd_updateFailed_exists (cfg : Config) (now : Nat)
    (dr : FetchResult DynamicData) (sr : FetchResult StaticData)
    (s : CoordinatorState)
    (h : (async_update_data cfg now dr sr s).result = .updateFailed) :
    ∃ sf, async_update_data cfg now dr sr s
        = connection_error_outcome cfg sf s := by
  cases dr with
  | connectionError => exact ⟨false, rfl⟩
  | authError => exact absurd h (by simp [upd_dyn_auth, auth_error_outcome])
  | unexpectedError =>
      exact absurd h (by simp [upd_dyn_unexpected, unexpected_error_outcome])
  | ok D =>
      by_cases hn : static_fetch_needed cfg now s = true
      · rw [upd_ok_needed cfg now D sr s hn] at h ⊢
        cases sr with
        | connectionError => exact ⟨true, rfl⟩
        | ok S => exact absurd h (by simp [fetch_static_branch])
        | authError =>
            exact absurd h (by simp [fetch_static_branch, auth_error_outcome])
        | unexpectedError =>
            exact absurd h
              (by simp [fetch_static_branch, unexpected_error_outcome])
      · rw [Bool.not_eq_true] at hn
        obtain ⟨c, hc, hsu⟩ := static_fetch_needed_false cfg now s hn
        rw [upd_ok_cached cfg now D sr s c hc hsu] at h
        simp at h

lemma upd_authFailed_exists (cfg : Config) (now : Nat)
    (dr : FetchResult DynamicData) (sr : FetchResult StaticData)
    (s : CoordinatorState)
    (h : (async_update_data cfg now dr sr s).result
        = .configEntryAuthFailed) :
    ∃ sf, async_update_data cfg now dr sr s = auth_error_outcome sf s := by
  cases dr with
  | authError => exact ⟨false, rfl⟩
  | connectionError =>
      exact absurd h (by simp [upd_dyn_conn, connection_error_outcome])
  | unexpectedError =>
      exact absurd h (by simp [upd_dyn_unexpected, unexpected_error_outcome])
  | ok D =>
      by_cases hn : static_fetch_needed cfg now s = true
      · rw [upd_ok_needed cfg now D sr s hn] at h ⊢
        cases sr with
        | authError => exact ⟨true, rfl⟩
        | ok S => exact absurd h (by simp [fetch_static_branch])
        | connectionError =>
            exact absurd h
              (by simp [fetch_static_branch, connection_error_outcome])
        | unexpectedError =>
            exact absurd h
              (by simp [fetch_static_branch, unexpected_error_outcome])
      · rw [Bool.not_eq_true] at hn
        obtain ⟨c, hc, hsu⟩ := static_fetch_needed_false cfg now s hn
        rw [upd_ok_cached cfg now D sr s c hc hsu] at h
        simp at h

lemma upd_unexpected_exists (cfg : Config) (now : Nat)
    (dr : FetchResult DynamicData) (sr : FetchResult StaticData)
    (s : CoordinatorState)
    (h : (async_update_data cfg now dr sr s).result = .unexpectedFailure) :
    ∃ sf, async_update_data cfg now dr sr s
        = unexpected_error_outcome sf s := by
  cases dr with
  | unexpectedError => exact ⟨false, rfl⟩
  | connectionError =>
      exact absurd h (by simp [upd_dyn_conn, connection_error_outcome])
  | authError => exact absurd h (by simp [upd_dyn_auth, auth_error_outcome])
  | ok D =>
      by_cases hn : static_fetch_needed cfg now s = true
      · rw [upd_ok_needed cfg now D sr s hn] at h ⊢
        cases sr with
        | unexpectedError => exact ⟨true, rfl⟩
        | ok S => exact absurd h (by simp [fetch_static_branch])
        | connectionError =>
            exact absurd h
              (by simp [fetch_static_branch, connection_error_outcome])
        | authError =>
            exact absurd h (by simp [fetch_static_branch, auth_error_outcome])
      · rw [Bool.not_eq_true] at hn
        obtain ⟨c, hc, hsu⟩ := static_fetch_needed_false cfg now s hn
        rw [upd_ok_cached cfg now D sr s c hc hsu] at h
        simp at h

lemma upd_result_conn_iff (cfg : Config) (now : Nat)
    (dr : FetchResult DynamicData) (sr : FetchResult StaticData)
    (s : CoordinatorState) :
    (async_update_data cfg now dr sr s).result = .updateFailed ↔
      dr = .connectionError ∨
        (∃ D, dr = .ok D ∧ static_fetch_needed cfg now s = true ∧
          sr = .connectionError) := by
  constructor
  · intro h
    cases dr with
    | connectionError => exact Or.inl rfl
    | authError => exact absurd h (by simp [upd_dyn_auth, auth_error_outcome])
    | unexpectedError =>
        exact absurd h
          (by simp [upd_dyn_unexpected, unexpected_error_outcome])
    | ok D =>
        refine Or.inr ⟨D, rfl, ?_⟩
        by_cases hn : static_fetch_needed cfg now s = true
        · rw [upd_ok_needed cfg now D sr s hn] at h
          refine ⟨hn, ?_⟩
          cases sr with
          | connectionError => rfl
          | ok S => exact absurd h (by simp [fetch_static_branch])
          | authError =>
              exact absurd h
                (by simp [fetch_static_branch, auth_error_outcome])
          | unexpectedError =>
              exact absurd h
                (by simp [fetch_static_branch, unexpected_error_outcome])
        · rw [Bool.not_eq_true] at hn
          obtain ⟨c, hc, hsu⟩ := static_fetch_needed_false cfg now s hn
          rw [upd_ok_cached cfg now D sr s c hc hsu] at h
          simp at h
  · rintro (rfl | ⟨D, rfl, hn, rfl⟩)
    · rfl
    · rw [upd_ok_needed cfg now D .connectionError s hn]
      rfl

lemma upd_success_resets (cfg : Config) (now : Nat)
    (dr : FetchResult DynamicData) (sr : FetchResult StaticData)
    (s : CoordinatorState) (d : CoordinatorData)
    (h : (async_update_data cfg now dr sr s).result = .success d) :
    (async_update_data cfg now dr sr s).state.connection_errors = 0 ∧
    (async_update_data cfg now dr sr s).state.data = some d := by
  cases dr with
  | connectionError => exact absurd h (by simp [upd_dyn_conn, connection_error_outcome])
  | authError => exact absurd h (by simp [upd_dyn_auth, auth_error_outcome])
  | unexpectedError =>
      exact absurd h
        (by simp [upd_dyn_unexpected, unexpected_error_outcome])
  | ok D =>
      by_cases hn : static_fetch_needed cfg now s = true
      · rw [upd_ok_needed cfg now D sr s hn] at h ⊢
        cases sr with
        | ok S =>
            simp only [fetch_static_branch, UpdateResult.success.injEq] at h
            subst h
            exact ⟨rfl, rfl⟩
        | connectionError =>
            exact absurd h
              (by simp [fetch_static_branch, connection_error_outcome])
        | authError =>
            exact absurd h (by simp [fetch_static_branch, auth_error_outcome])
        | unexpectedError =>
            exact absurd h
              (by simp [fetch_static_branch, unexpected_error_outcome])
      · rw [Bool.not_eq_true] at hn
        obtain ⟨c, hc, hsu⟩ := static_fetch_needed_false cfg now s hn
        rw [upd_ok_cached cfg now D sr s c hc hsu] at h ⊢
        simp only [UpdateResult.success.injEq] at h
        subst h
        exact ⟨rfl, rfl⟩

lemma upd_success_shape (cfg : Config) (now : Nat) (D : DynamicData)
    (sr : FetchResult StaticData) (s : CoordinatorState)
    (d : CoordinatorData)
    (h : (async_update_data cfg now (.ok D) sr s).result = .success d) :
    (∃ S, sr = .ok S ∧ static_fetch_needed cfg now s = true ∧
      d = buildFromStatic S D ∧
      (async_update_data cfg now (.ok D) sr s).state.static_data_cache
        = some (buildFromStatic S D)) ∨
    (∃ c, s.static_data_cache = some c ∧ d = buildFromCache c D) := by
  by_cases hn : static_fetch_needed cfg now s = true
  · rw [upd_ok_needed cfg now D sr s hn] at h ⊢
    cases sr with
    | ok S =>
        simp only [fetch_static_branch, UpdateResult.success.injEq] at h
        exact Or.inl ⟨S, rfl, hn, h.symm, by rw [fetch_static_branch]⟩
    | connectionError =>
        exact absurd h
          (by simp [fetch_static_branch, connection_error_outcome])
    | authError =>
        exact absurd h (by simp [fetch_static_branch, auth_error_outcome])
    | unexpectedError =>
        exact absurd h
          (by simp [fetch_static_branch, unexpected_error_outcome])
  · rw [Bool.not_eq_true] at hn
    obtain ⟨c, hc, hsu⟩ := static_fetch_needed_false cfg now s hn
    rw [upd_ok_cached cfg now D sr s c hc hsu] at h
    simp only [UpdateResult.success.injEq] at h
    exact Or.inr ⟨c, hc, h.symm⟩

lemma conn_outcome_alert_calls (cfg : Config) (sf : Bool)
    (s : CoordinatorState) :
    (connection_error_outcome cfg sf s).alert_calls
      = if CONNECTION_ERROR_THRESHOLD ≤ s.connection_errors + 1
        then 1 else 0 :=
  rfl

lemma conn_outcome_issue (cfg : Config) (sf : Bool) (s : CoordinatorState) :
    (connection_error_outcome cfg sf s).state.issue
      = if CONNECTION_ERROR_THRESHOLD ≤ s.connection_errors + 1
        then some (cfg.host, s.connection_errors + 1) else s.issue :=
  rfl

lemma three_conn_failures (cfg : Config) (s : CoordinatorState)
    (h0 : s.connection_errors = 0) (n₁ n₂ n₃ : Nat)
    (sr₁ sr₂ sr₃ : FetchResult StaticData) :
    (run_refreshes cfg [⟨n₁, .connectionError, sr₁⟩,
      ⟨n₂, .connectionError, sr₂⟩, ⟨n₃, .connectionError, sr₃⟩] s).2 = 1 ∧
    (run_refreshes cfg [⟨n₁, .connectionError, sr₁⟩,
      ⟨n₂, .connectionError, sr₂⟩, ⟨n₃, .connectionError, sr₃⟩] s).1.issue
      = some (cfg.host, 3) ∧
    (run_refreshes cfg [⟨n₁, .connectionError, sr₁⟩,
        ⟨n₂, .connectionError, sr₂⟩,
        ⟨n₃, .connectionError, sr₃⟩] s).1.connection_errors = 3 := by
  simp only [run_refreshes, upd_dyn_conn]
  simp [connection_error_outcome, h0, CONNECTION_ERROR_THRESHOLD]

/-- C2: a refresh raises `UpdateFailed` exactly when one of the fetches
it performed raised a `ConnectionError`; every such refresh increments
`_connection_errors` by one; at the threshold of 3 the refresh calls the
(idempotent) issue upsert exactly once, registering a persistent repair
issue carrying the host and the error count, and below the threshold it
makes no issue call; every successful refresh resets the counter to 0;
three consecutive connection failures from a clean counter produce
exactly one issue call; and after any successful refresh three new
consecutive failures again produce exactly one issue call. -/
theorem connection_error_alerting (cfg : Config) (now : Nat)
    (dr : FetchResult DynamicData) (sr : FetchResult StaticData)
    (s : CoordinatorState) :
    ((async_update_data cfg now dr sr s).result = .updateFailed ↔
      dr = .connectionError ∨
        (∃ D, dr = .ok D ∧ static_fetch_needed cfg now s = true ∧
          sr = .connectionError)) ∧
    ((async_update_data cfg now dr sr s).result = .updateFailed →
      (async_update_data cfg now dr sr s).state.connection_errors
          = s.connection_errors + 1 ∧
      (CONNECTION_ERROR_THRESHOLD ≤ s.connection_errors + 1 →
        (async_update_data cfg now dr sr s).alert_calls = 1 ∧
        (async_update_data cfg now dr sr s).state.issue
            = some (cfg.host, s.connection_errors + 1)) ∧
      (s.connection_errors + 1 < CONNECTION_ERROR_THRESHOLD →
        (async_update_data cfg now dr sr s).alert_calls = 0 ∧
        (async_update_data cfg now dr sr s).state.issue = s.issue)) ∧
    (∀ d, (async_update_data cfg now dr sr s).result = .success d →
      (async_update_data cfg now dr sr s).state.connection_errors = 0) ∧
    (s.connection_errors = 0 → ∀ n₁ n₂ n₃ sr₁ sr₂ sr₃,
      (run_refreshes cfg [⟨n₁, .connectionError, sr₁⟩,
        ⟨n₂, .connectionError, sr₂⟩,
        ⟨n₃, .connectionError, sr₃⟩] s).2 = 1 ∧
      (run_refreshes cfg [⟨n₁, .connectionError, sr₁⟩,
        ⟨n₂, .connectionError, sr₂⟩,
        ⟨n₃, .connectionError, sr₃⟩] s).1.issue = some (cfg.host, 3) ∧
      (run_refreshes cfg [⟨n₁, .connectionError, sr₁⟩,
          ⟨n₂, .connectionError, sr₂⟩,
          ⟨n₃, .connectionError, sr₃⟩] s).1.connection_errors = 3) ∧
    (∀ d, (async_update_data cfg now dr sr s).result = .success d →
      ∀ n₁ n₂ n₃ sr₁ sr₂ sr₃,
        (run_refreshes cfg [⟨n₁, .connectionError, sr₁⟩,
          ⟨n₂, .connectionError, sr₂⟩, ⟨n₃, .connectionError, sr₃⟩]
          (async_update_data cfg now dr sr s).state).2 = 1 ∧
        (run_refreshes cfg [⟨n₁, .connectionError, sr₁⟩,
          ⟨n₂, .connectionError, sr₂⟩, ⟨n₃, .connectionError, sr₃⟩]
          (async_update_data cfg now dr sr s).state).1.issue
            = some (cfg.host, 3)) := by
  refine ⟨upd_result_conn_iff cfg now dr sr s, ?_, ?_, ?_, ?_⟩
  · intro h
    obtain ⟨sf, he⟩ := upd_updateFailed_exists cfg now dr sr s h
    rw [he]
    refine ⟨rfl, ?_, ?_⟩
    · intro ht
      rw [conn_outcome_alert_calls, conn_outcome_issue, if_pos ht, if_pos ht]
      exact ⟨rfl, rfl⟩
    · intro hlt
      have hnt : ¬ CONNECTION_ERROR_THRESHOLD ≤ s.connection_errors + 1 := by
        omega
      rw [conn_outcome_alert_calls, conn_outcome_issue, if_neg hnt,
        if_neg hnt]
      exact ⟨rfl, rfl⟩
  · exact fun d h => (upd_success_resets cfg now dr sr s d h).1
  · intro h0 n₁ n₂ n₃ sr₁ sr₂ sr₃
    exact three_conn_failures cfg s h0 n₁ n₂ n₃ sr₁ sr₂ sr₃
  · intro d h n₁ n₂ n₃ sr₁ sr₂ sr₃
    have h0 := (upd_success_resets cfg now dr sr s d h).1
    have ht := three_conn_failures cfg
      (async_update_data cfg now dr sr s).state h0 n₁ n₂ n₃ sr₁ sr₂ sr₃
    exact ⟨ht.1, ht.2.1⟩

/-- Witness for C2: from the initial state, three refreshes whose dynamic
fetch raises `ConnectionError` make exactly one issue call and leave the
issue registered with host 0 and error count 3. -/
theorem connection_error_alerting_witness :
    initial_state.connection_errors = 0 ∧
    (run_refreshes cfg0 [⟨1, .connectionError, .ok S0⟩,
      ⟨2, .connectionError, .ok S0⟩, ⟨3, .connectionError, .ok S0⟩]
      initial_state).2 = 1 ∧
    (run_refreshes cfg0 [⟨1, .connectionError, .ok S0⟩,
      ⟨2, .connectionError, .ok S0⟩, ⟨3, .connectionError, .ok S0⟩]
      initial_state).1.issue = some (cfg0.host, 3) ∧
    (run_refreshes cfg0 [⟨1, .connectionError, .ok S0⟩,
        ⟨2, .connectionError, .ok S0⟩, ⟨3, .connectionError, .ok S0⟩]
      initial_state).1.connection_errors = 3 :=
  ⟨rfl, (connection_error_alerting cfg0 0 .connectionError (.ok S0)
    initial_state).2.2.2.1 rfl 1 2 3 (.ok S0) (.ok S0) (.ok S0)⟩

/-- C3: whenever the dynamic fetch, or a static fetch that actually runs,
raises `AuthenticationError`, the refresh raises
`ConfigEntryAuthFailed`, leaves the whole coordinator state unchanged (in
particular `_connection_errors`), and makes no issue call. -/
theorem auth_error_fatal (cfg : Config) (now : Nat)
    (dr : FetchResult DynamicData) (sr : FetchResult StaticData)
    (s : CoordinatorState)
    (h : dr = .authError ∨
      (∃ D, dr = .ok D ∧ static_fetch_needed cfg now s = true ∧
        sr = .authError)) :
    (async_update_data cfg now dr sr s).result = .configEntryAuthFailed ∧
    (async_update_data cfg now dr sr s).state = s ∧
    (async_update_data cfg now dr sr s).alert_calls = 0 := by
  rcases h with rfl | ⟨D, rfl, hn, rfl⟩
  · exact ⟨rfl, rfl, rfl⟩
  · rw [upd_ok_needed cfg now D .authError s hn]
    exact ⟨rfl, rfl, rfl⟩

/-- Witness for C3: a dynamic-fetch auth failure at a concrete input. -/
theorem auth_error_fatal_witness :
    (async_update_data cfg0 400 .authError (.ok S0)
      initial_state).result = .configEntryAuthFailed ∧
    (async_update_data cfg0 400 .authError (.ok S0)
      initial_state).state = initial_state ∧
    (async_update_data cfg0 400 .authError (.ok S0)
      initial_state).alert_calls = 0 :=
  auth_error_fatal cfg0 400 .authError (.ok S0) initial_state (Or.inl rfl)

/-- C10: a refresh that ends in `ConfigEntryAuthFailed` leaves
`_connection_errors` exactly as it was (neither incremented nor reset);
hence two connection failures, an auth failure, and a further connection
failure leave the counter at 3 and fire the alert exactly once. -/
theorem auth_preserves_error_streak (cfg : Config) (now : Nat)
    (dr : FetchResult DynamicData) (sr : FetchResult StaticData)
    (s : CoordinatorState) :
    ((async_update_data cfg now dr sr s).result = .configEntryAuthFailed →
      (async_update_data cfg now dr sr s).state.connection_errors
        = s.connection_errors) ∧
    (s.connection_errors = 0 → ∀ n₁ n₂ n₃ n₄ sr₁ sr₂ sr₃ sr₄,
      (run_refreshes cfg [⟨n₁, .connectionError, sr₁⟩,
        ⟨n₂, .connectionError, sr₂⟩, ⟨n₃, .authError, sr₃⟩,
        ⟨n₄, .connectionError, sr₄⟩] s).1.connection_errors = 3 ∧
      (run_refreshes cfg [⟨n₁, .connectionError, sr₁⟩,
        ⟨n₂, .connectionError, sr₂⟩, ⟨n₃, .authError, sr₃⟩,
        ⟨n₄, .connectionError, sr₄⟩] s).2 = 1 ∧
      (run_refreshes cfg [⟨n₁, .connectionError, sr₁⟩,
        ⟨n₂, .connectionError, sr₂⟩, ⟨n₃, .authError, sr₃⟩,
        ⟨n₄, .connectionError, sr₄⟩] s).1.issue
          = some (cfg.host, 3)) := by
  constructor
  · intro h
    obtain ⟨sf, he⟩ := upd_authFailed_exists cfg now dr sr s h
    rw [he]
    rfl
  · intro h0 n₁ n₂ n₃ n₄ sr₁ sr₂ sr₃ sr₄
    simp only [run_refreshes, upd_dyn_conn, upd_dyn_auth]
    simp [connection_error_outcome, auth_error_outcome, h0,
      CONNECTION_ERROR_THRESHOLD]

/-- Witness for C10: the interrupted streak at concrete inputs. -/
theorem auth_preserves_error_streak_witness :
    initial_state.connection_errors = 0 ∧
    (run_refreshes cfg0 [⟨1, .connectionError, .ok S0⟩,
      ⟨2, .connectionError, .ok S0⟩, ⟨3, .authError, .ok S0⟩,
      ⟨4, .connectionError, .ok S0⟩] initial_state).1.connection_errors
        = 3 ∧
    (run_refreshes cfg0 [⟨1, .connectionError, .ok S0⟩,
      ⟨2, .connectionError, .ok S0⟩, ⟨3, .authError, .ok S0⟩,
      ⟨4, .connectionError, .ok S0⟩] initial_state).2 = 1 ∧
    (run_refreshes cfg0 [⟨1, .connectionError, .ok S0⟩,
      ⟨2, .connectionError, .ok S0⟩, ⟨3, .authError, .ok S0⟩,
      ⟨4, .connectionError, .ok S0⟩] initial_state).1.issue
        = some (cfg0.host, 3) :=
  ⟨rfl, (auth_preserves_error_streak cfg0 0 .connectionError (.ok S0)
    initial_state).2 rfl 1 2 3 4 (.ok S0) (.ok S0) (.ok S0) (.ok S0)⟩

/-- C4: given a populated published snapshot, a refresh that fails — with
`ConfigEntryAuthFailed`, with `UpdateFailed` from a connection error, or
with the generic `UpdateFailed` — leaves the published snapshot, the
static cache and the last-static-fetch time unchanged, so subscribers
keep seeing the last-known-good merged snapshot. -/
theorem stale_on_failure (cfg : Config) (now : Nat)
    (dr : FetchResult DynamicData) (sr : FetchResult StaticData)
    (s : CoordinatorState) (snap : CoordinatorData)
    (hpop : s.data = some snap)
    (hfail :
      (async_update_data cfg now dr sr s).result = .configEntryAuthFailed ∨
      (async_update_data cfg now dr sr s).result = .updateFailed ∨
      (async_update_data cfg now dr sr s).result = .unexpectedFailure) :
    (async_update_data cfg now dr sr s).state.data = some snap ∧
    (async_update_data cfg now dr sr s).state.static_data_cache
        = s.static_data_cache ∧
    (async_update_data cfg now dr sr s).state.last_static_update
        = s.last_static_update := by
  rcases hfail with h | h | h
  · obtain ⟨sf, he⟩ := upd_authFailed_exists cfg now dr sr s h
    rw [he]
    exact ⟨hpop, rfl, rfl⟩
  · obtain ⟨sf, he⟩ := upd_updateFailed_exists cfg now dr sr s h
    rw [he]
    exact ⟨hpop, rfl, rfl⟩
  · obtain ⟨sf, he⟩ := upd_unexpected_exists cfg now dr sr s h
    rw [he]
    exact ⟨hpop, rfl, rfl⟩

/-- Witness for C4: after a successful first refresh, a refresh whose
dynamic fetch raises `ConnectionError` keeps the published snapshot and
the static cache. -/
theorem stale_on_failure_witness :
    (async_update_data cfg0 400 (.ok D0) (.ok S0)
      initial_state).state.data = some (buildFromStatic S0 D0) ∧
    ((async_update_data cfg0 410 .connectionError (.ok S0)
        (async_update_data cfg0 400 (.ok D0) (.ok S0)
          initial_state).state).state.data
        = some (buildFromStatic S0 D0) ∧
      (async_update_data cfg0 410 .connectionError (.ok S0)
          (async_update_data cfg0 400 (.ok D0) (.ok S0)
            initial_state).state).state.static_data_cache
        = (async_update_data cfg0 400 (.ok D0) (.ok S0)
            initial_state).state.static_data_cache ∧
      (async_update_data cfg0 410 .connectionError (.ok S0)
          (async_update_data cfg0 400 (.ok D0) (.ok S0)
            initial_state).state).state.last_static_update
        = (async_update_data cfg0 400 (.ok D0) (.ok S0)
            initial_state).state.last_static_update) :=
  ⟨rfl, stale_on_failure cfg0 410 .connectionError (.ok S0)
    (async_update_data cfg0 400 (.ok D0) (.ok S0) initial_state).state
    (buildFromStatic S0 D0) rfl (Or.inr (Or.inl rfl))⟩

/-- C9: every successful refresh returns a snapshot whose dynamic fields
(`thermal`, `power`, `fan_mode`, `snooping`) come from that refresh's own
dynamic fetch; when the static fetch runs, the cache stores the full
merged snapshot — including that cycle's dynamic values — and when the
cache is reused, the published snapshot is `buildFromCache cache D`,
whose dynamic fields are the fresh ones, so the stale dynamic values held
in the cache are never published. -/
theorem fresh_dynamic_invariant (cfg : Config) (now : Nat)
    (D : DynamicData) (sr : FetchResult StaticData) (s : CoordinatorState)
    (d : CoordinatorData)
    (h : (async_update_data cfg now (.ok D) sr s).result = .success d) :
    (d.thermal = D.thermal ∧ d.power = D.power ∧
      d.fan_mode = D.fan_mode ∧ d.snooping = D.snooping) ∧
    (∀ S, sr = .ok S →
      (async_update_data cfg now (.ok D) sr s).static_fetched = true →
      (async_update_data cfg now (.ok D) sr s).state.static_data_cache
          = some (buildFromStatic S D) ∧
      (buildFromStatic S D).thermal = D.thermal ∧
      (buildFromStatic S D).power = D.power ∧
      (buildFromStatic S D).fan_mode = D.fan_mode ∧
      (buildFromStatic S D).snooping = D.snooping) ∧
    (∀ c, s.static_data_cache = some c →
      (async_update_data cfg now (.ok D) sr s).static_fetched = false →
      d = buildFromCache c D) := by
  refine ⟨?_, ?_, ?_⟩
  · rcases upd_success_shape cfg now D sr s d h with
      ⟨S, _, _, rfl, _⟩ | ⟨c, _, rfl⟩
    · exact ⟨rfl, rfl, rfl, rfl⟩
    · exact ⟨rfl, rfl, rfl, rfl⟩
  · rintro S rfl hf
    rw [static_fetched_eq] at hf
    rw [upd_ok_ok_needed cfg now D S s hf]
    exact ⟨rfl, rfl, rfl, rfl, rfl⟩
  · intro c hc hf
    rw [static_fetched_eq] at hf
    obtain ⟨c', hc', hsu⟩ := static_fetch_needed_false cfg now s hf
    rw [hc] at hc'
    obtain rfl : c = c' := by injection hc'
    rw [upd_ok_cached cfg now D sr s c hc hsu] at h
    simpa using h.symm

/-- Witness for C9: a cached-branch refresh at a concrete input returns
the fresh dynamic fields, not the ones stored in the cache. -/
theorem fresh_dynamic_invariant_witness :
    (async_update_data cfg0 410 (.ok ⟨21, 22, 23, 24⟩) (.ok S0)
        (async_update_data cfg0 400 (.ok D0) (.ok S0)
          initial_state).state).result
      = .success (buildFromCache (buildFromStatic S0 D0) ⟨21, 22, 23, 24⟩) ∧
    ((buildFromCache (buildFromStatic S0 D0) ⟨21, 22, 23, 24⟩).thermal = 21 ∧
      (buildFromCache (buildFromStatic S0 D0) ⟨21, 22, 23, 24⟩).power = 22 ∧
      (buildFromCache (buildFromStatic S0 D0) ⟨21, 22, 23, 24⟩).fan_mode
        = 23 ∧
      (buildFromCache (buildFromStatic S0 D0) ⟨21, 22, 23, 24⟩).snooping
        = 24) :=
  ⟨rfl, (fresh_dynamic_invariant cfg0 410 ⟨21, 22, 23, 24⟩ (.ok S0)
    (async_update_data cfg0 400 (.ok D0) (.ok S0) initial_state).state
    (buildFromCache (buildFromStatic S0 D0) ⟨21, 22, 23, 24⟩) rfl).1⟩

lemma burst_loop_mem (interval : Nat) :
    ∀ (fuel e t τ : Nat),
      (τ ∈ burst_loop fuel interval e t ↔
        ∃ k, k < fuel ∧ τ = t + (k + 1) * interval ∧
          t + k * interval < e) := by
  intro fuel
  induction fuel with
  | zero => intro e t τ; simp [burst_loop]
  | succ n ih =>
      intro e t τ
      unfold burst_loop
      by_cases h : t < e
      · simp only [if_pos h, List.mem_cons, ih]
        constructor
        · rintro (rfl | ⟨k, hk, rfl, hke⟩)
          · exact ⟨0, Nat.succ_pos n, by ring_nf, by simpa using h⟩
          · refine ⟨k + 1, by omega, by ring_nf, ?_⟩
            have harr : t + interval + k * interval
                = t + (k + 1) * interval := by ring
            omega
        · rintro ⟨k, hk, rfl, hke⟩
          cases k with
          | zero => exact Or.inl (by ring_nf)
          | succ j =>
              refine Or.inr ⟨j, by omega, by ring_nf, ?_⟩
              have harr : t + interval + j * interval
                  = t + (j + 1) * interval := by ring
              omega
      · simp only [if_neg h, List.not_mem_nil, false_iff, not_exists]
        rintro k ⟨_, _, hke⟩
        have := Nat.le_add_right t (k * interval)
        omega

lemma async_burst_polling_mem (duration interval t0 : Nat)
    (hi : 1 ≤ interval) (τ : Nat) :
    τ ∈ async_burst_polling duration interval t0 ↔
      ∃ k, τ = t0 + (k + 1) * interval ∧ k * interval < duration := by
  unfold async_burst_polling
  rw [burst_loop_mem interval]
  constructor
  · rintro ⟨k, _, rfl, hlt⟩
    exact ⟨k, rfl, by omega⟩
  · rintro ⟨k, rfl, hlt⟩
    have hk : k ≤ k * interval := by
      calc k = k * 1 := (Nat.mul_one k).symm
      _ ≤ k * interval := Nat.mul_le_mul_left k hi
    exact ⟨k, by omega, rfl, by omega⟩

lemma async_burst_polling_le (duration interval t0 : Nat)
    (hi : 1 ≤ interval) (τ : Nat)
    (hτ : τ ∈ async_burst_polling duration interval t0) :
    τ < t0 + duration + interval := by
  rw [async_burst_polling_mem duration interval t0 hi] at hτ
  obtain ⟨k, rfl, hlt⟩ := hτ
  have harr : (k + 1) * interval = k * interval + interval := by ring
  omega

lemma dead_not_active (duration interval now : Nat) (tk : BurstTask)
    (h : tk.cancelled_at ≠ none ∨
      task_finish_time duration interval tk ≤ now) :
    task_active duration interval now tk = false := by
  unfold task_active task_done
  rcases h with h | h
  · have hc : tk.cancelled_at.isNone = false := by
      cases hc : tk.cancelled_at with
      | none => exact absurd hc h
      | some tc => rfl
    simp [hc]
  · simp [decide_eq_true h]

lemma enable_tail_dead (duration interval t now : Nat)
    (tasks : List BurstTask)
    (hIH : ∀ tk ∈ tasks.tail, tk.cancelled_at ≠ none ∨
      task_finish_time duration interval tk ≤ now)
    (ht : t ≤ now) :
    ∀ tk ∈ (enable_burst_mode duration interval t tasks).tail,
      tk.cancelled_at ≠ none ∨
        task_finish_time duration interval tk ≤ now := by
  cases tasks with
  | nil => simp [enable_burst_mode]
  | cons hd rest =>
      intro tk htk
      simp only [enable_burst_mode, List.tail_cons] at htk
      rcases List.mem_cons.mp htk with heq | hmem
      · subst heq
        by_cases hcond :
            (hd.cancelled_at.isNone &&
              !(task_done duration interval t hd)) = true
        · rw [if_pos hcond]
          exact Or.inl (by simp)
        · rw [if_neg hcond]
          rw [Bool.and_eq_true, Bool.not_eq_true'] at hcond
          push_neg at hcond
          by_cases hn : hd.cancelled_at.isNone = true
          · have hdone : task_done duration interval t hd = true := by
              cases hdd : task_done duration interval t hd with
              | true => rfl
              | false => exact absurd hdd (hcond hn)
            unfold task_done at hdone
            right
            have := of_decide_eq_true hdone
            omega
          · left
            cases hc : hd.cancelled_at with
            | none => rw [hc] at hn; simp at hn
            | some tc => simp
      · exact hIH tk (by simpa using hmem)

lemma run_bursts_tail_dead (duration interval now : Nat) :
    ∀ (ts : List Nat) (s : List BurstTask),
      (∀ u ∈ ts, u ≤ now) →
      (∀ tk ∈ s.tail, tk.cancelled_at ≠ none ∨
        task_finish_time duration interval tk ≤ now) →
      ∀ tk ∈ (ts.foldl
          (fun acc t => enable_burst_mode duration interval t acc) s).tail,
        tk.cancelled_at ≠ none ∨
          task_finish_time duration interval tk ≤ now := by
  intro ts
  induction ts with
  | nil => intro s _ hs; simpa using hs
  | cons t rest ih =>
      intro s hts hs
      simp only [List.foldl_cons]
      exact ih (enable_burst_mode duration interval t s)
        (fun u hu => hts u (List.mem_cons_of_mem t hu))
        (enable_tail_dead duration interval t now s hs
          (hts t (List.mem_cons_self t rest)))

lemma filter_active_le_one (duration interval now : Nat)
    (l : List BurstTask)
    (h : ∀ tk ∈ l.tail, task_active duration interval now tk = false) :
    (l.filter (task_active duration interval now)).length ≤ 1 := by
  cases l with
  | nil => simp
  | cons hd tl =>
      have htl : tl.filter (task_active duration interval now) = [] := by
        rw [List.filter_eq_nil_iff]
        intro tk htk
        rw [h tk (by simpa using htk)]
        simp
      rw [List.filter_cons]
      split
      · simp [htl]
      · simp [htl]

/-- C6: `enable_burst_mode` at time `t` installs a fresh burst task whose
window of ticks starts at the call time; when the previous cycle is still
active it is cancelled at `t`, so every tick it ever fires is at or
before `t` (its remaining ticks are gone); and along any sequence of
`enable_burst_mode` calls, at most one burst task is active at any later
time — windows restart rather than stack. -/
theorem burst_restart (duration interval t : Nat)
    (tasks : List BurstTask) :
    ((enable_burst_mode duration interval t tasks).head?
        = some ⟨t, none⟩) ∧
    (fired_ticks duration interval ⟨t, none⟩
        = async_burst_polling duration interval t) ∧
    (∀ hd rest, tasks = hd :: rest →
      task_active duration interval t hd = true →
      enable_burst_mode duration interval t tasks
          = ⟨t, none⟩ :: { hd with cancelled_at := some t } :: rest ∧
      ∀ τ ∈ fired_ticks duration interval
          { hd with cancelled_at := some t }, τ ≤ t) ∧
    (∀ (ts : List Nat) (now : Nat), (∀ u ∈ ts, u ≤ now) →
      ((run_bursts duration interval ts).filter
        (task_active duration interval now)).length ≤ 1) := by
  refine ⟨?_, rfl, ?_, ?_⟩
  · cases tasks <;> rfl
  · rintro hd rest rfl hact
    unfold task_active at hact
    constructor
    · simp only [enable_burst_mode]
      rw [if_pos hact]
    · intro τ hτ
      unfold fired_ticks at hτ
      simp only [List.mem_filter, decide_eq_true_eq] at hτ
      exact hτ.2
  · intro ts now hts
    exact filter_active_le_one duration interval now _
      (fun tk htk => dead_not_active duration interval now tk
        (run_bursts_tail_dead duration interval now ts [] hts
          (by simp) tk htk))

/-- Witness for C6: at concrete inputs, enabling burst mode at time 10
while the task started at time 0 is still active cancels that task and
installs the new one. -/
theorem burst_restart_witness :
    task_active 60 5 10 ⟨0, none⟩ = true ∧
    enable_burst_mode 60 5 10 [⟨0, none⟩]
      = [⟨10, none⟩, ⟨0, some 10⟩] :=
  ⟨by decide, ((burst_restart 60 5 10 [⟨0, none⟩]).2.2.1 ⟨0, none⟩ []
    rfl (by decide)).1⟩

/-- C7: with a positive burst interval, a burst cycle activated at `t0`
requests a refresh exactly at the times `t0 + (k+1)·interval` for which
`k·interval < duration` — one request every `interval` seconds until
`duration` seconds have elapsed — then stops: no tick occurs at or after
`t0 + duration + interval`.  Cancelling the cycle at time `tc` only
removes the ticks after `tc`: the requests at or before `tc`, already
issued, are exactly preserved, and an uncancelled cycle fires its full
tick list. -/
theorem burst_cycle_timing (duration interval t0 : Nat)
    (hi : 1 ≤ interval) :
    (∀ τ, τ ∈ async_burst_polling duration interval t0 ↔
      ∃ k, τ = t0 + (k + 1) * interval ∧ k * interval < duration) ∧
    (∀ τ ∈ async_burst_polling duration interval t0,
      τ < t0 + duration + interval) ∧
    (∀ tc τ, τ ∈ fired_ticks duration interval ⟨t0, some tc⟩ ↔
      τ ∈ async_burst_polling duration interval t0 ∧ τ ≤ tc) ∧
    (∀ τ, τ ∈ fired_ticks duration interval ⟨t0, none⟩ ↔
      τ ∈ async_burst_polling duration interval t0) := by
  refine ⟨async_burst_polling_mem duration interval t0 hi,
    async_burst_polling_le duration interval t0 hi, ?_, fun τ => Iff.rfl⟩
  intro tc τ
  unfold fired_ticks
  simp [List.mem_filter]

/-- Witness for C7: with the default burst interval 5 and duration 60, a
cycle activated at time 100 ticks at 105, and that tick survives a
cancellation at time 110. -/
theorem burst_cycle_timing_witness :
    (105 ∈ async_burst_polling 60 5 100) ∧
    (105 ∈ fired_ticks 60 5 ⟨100, some 110⟩) := by
  have h1 : 105 ∈ async_burst_polling 60 5 100 :=
    ((burst_cycle_timing 60 5 100 (by decide)).1 105).mpr
      ⟨0, by decide, by decide⟩
  exact ⟨h1, ((burst_cycle_timing 60 5 100 (by decide)).2.2.1 110 105).mpr
    ⟨h1, by decide⟩⟩

end SupermicroRedfish
